import Mathlib

/-!
# foresight: news fetcher and handler

A shallow embedding of `src/main.go`.  Go strings are byte sequences, so they
are modelled as lists of bytes.  The operating system, the network and the
standard library's JSON decoder are not part of the repository: they are the
fields of a `Runtime` record over which every theorem is quantified.
-/

namespace Foresight

set_option maxRecDepth 100000

/-! ## Go strings -/

/-- One byte of a Go string. -/
abbrev Byte := Fin 256

/-- Go `string`: an immutable sequence of bytes. -/
abbrev GoString := List Byte

/-- UTF-8 encoding of one code point, as the Go compiler stores a literal. -/
def encodeRune (c : Char) : GoString :=
  let n := c.toNat
  if n < 0x80 then [Fin.ofNat n]
  else if n < 0x800 then [Fin.ofNat (0xC0 + n / 64), Fin.ofNat (0x80 + n % 64)]
  else if n < 0x10000 then
    [Fin.ofNat (0xE0 + n / 4096), Fin.ofNat (0x80 + n / 64 % 64), Fin.ofNat (0x80 + n % 64)]
  else
    [Fin.ofNat (0xF0 + n / 262144), Fin.ofNat (0x80 + n / 4096 % 64),
      Fin.ofNat (0x80 + n / 64 % 64), Fin.ofNat (0x80 + n % 64)]

/-- Bytes of a string literal of the source. -/
def str (s : String) : GoString :=
  s.data.flatMap encodeRune

/-- Byte value of an ASCII character literal such as `'%'`. -/
def ch (c : Char) : Byte :=
  Fin.ofNat c.toNat

/-! ## `fmt` -/

/-- Go `error` value; only its `Error()` text is observable in this program. -/
structure GoError where
  msg : GoString
  deriving DecidableEq, Repr

/-- `fmt.Sprintf` restricted to the verbs the program uses on string and error
operands (`%s`, `%v`, `%w`), each of which prints the operand's text; `%%`
prints a percent sign; a verb without operand prints `%!v(MISSING)` with its
own verb letter. -/
def Sprintf : GoString → List GoString → GoString
  | [], _ => []
  | c :: rest, args =>
    if c = ch '%' then
      match rest with
      | [] => str "%!(NOVERB)"
      | v :: rest2 =>
        if v = ch '%' then ch '%' :: Sprintf rest2 args
        else
          match args with
          | [] => str "%!" ++ [v] ++ str "(MISSING)" ++ Sprintf rest2 []
          | a :: args2 => a ++ Sprintf rest2 args2
    else c :: Sprintf rest args

/-- `fmt.Errorf`: an error whose text is the formatted string. -/
def Errorf (format : GoString) (args : List GoString) : GoError :=
  ⟨Sprintf format args⟩

/-! ## Data model (`src/main.go` lines 16-29) -/

/-- Go slice: `none` is the nil slice, `some xs` a non-nil slice. -/
abbrev Slice (α : Type) := Option (List α)

/-- Elements of a slice in index order; a nil slice has none. -/
def Slice.elems {α : Type} (s : Slice α) : List α :=
  s.getD []

/-- Civil reading of a `time.Time` in its own location. -/
structure GoTime where
  year : Nat
  month : Nat
  day : Nat
  hour : Nat
  minute : Nat
  second : Nat
  deriving DecidableEq, Repr

/-- Zero `time.Time`: January 1, year 1, 00:00:00 UTC. -/
def GoTime.zero : GoTime :=
  ⟨1, 1, 1, 0, 0, 0⟩

/-- The `NewsArticle` struct. -/
structure NewsArticle where
  Title : GoString
  Description : GoString
  Content : GoString
  PublishedAt : GoTime
  SourceName : GoString
  URL : GoString
  deriving DecidableEq, Repr

/-- The `NewsResponse` struct. -/
structure NewsResponse where
  Status : GoString
  TotalResults : Int
  Articles : Slice NewsArticle
  deriving DecidableEq, Repr

/-! ## The world outside the program -/

/-- Result of `http.Get` when the transport call completes: the status code and
what `io.ReadAll(resp.Body)` then yields. -/
structure HttpResponse where
  StatusCode : Nat
  Body : Except GoError GoString

/-- Everything `fetchNews` obtains from outside the repository. -/
structure Runtime where
  /-- Process environment, as `KEY=value` pairs. -/
  environ : List (GoString × GoString)
  /-- Outcome of `http.Get` for each URL. -/
  httpGet : GoString → Except GoError HttpResponse
  /-- Outcome of `json.Unmarshal(body, &newsResponse)` for each body. -/
  jsonUnmarshal : GoString → Except GoError NewsResponse

/-- First value recorded for a key in a list of pairs, if any. -/
def lookupFirst (pairs : List (GoString × GoString)) (key : GoString) : Option GoString :=
  match pairs with
  | [] => none
  | (k, v) :: rest => if k = key then some v else lookupFirst rest key

/-- `os.LookupEnv`: the entry of the environment for the key, if any. -/
def LookupEnv (environ : List (GoString × GoString)) (key : GoString) : Option GoString :=
  lookupFirst environ key

/-- `os.Getenv`: the value of the variable, empty when it is not set. -/
def Getenv (environ : List (GoString × GoString)) (key : GoString) : GoString :=
  (LookupEnv environ key).getD []

/-! ## `fetchNews` (lines 31-61) -/

/-- What one call of `fetchNews` returns and does: the two return values and
the URLs it handed to `http.Get`, in order. -/
structure FetchResult where
  articles : Slice NewsArticle
  err : Option GoError
  requested : List GoString
  deriving DecidableEq

/-- The function `fetchNews` of `src/main.go`. -/
def fetchNews (rt : Runtime) (query : GoString) : FetchResult :=
  let apiKey := Getenv rt.environ (str "NEWS_API_KEY")
  if apiKey = str "" then
    ⟨none, some (Errorf (str "NEWS_API_KEY environment variable not set") []), []⟩
  else
    let url := Sprintf (str "https://newsapi.org/v2/everything?q=%s&apiKey=%s") [query, apiKey]
    match rt.httpGet url with
    | .error err => ⟨none, some (Errorf (str "HTTP request failed: %w") [err.msg]), [url]⟩
    | .ok resp =>
      match resp.Body with
      | .error err =>
        ⟨none, some (Errorf (str "Reading response body failed: %w") [err.msg]), [url]⟩
      | .ok body =>
        match rt.jsonUnmarshal body with
        | .error err =>
          ⟨none, some (Errorf (str "JSON unmarshaling failed: %w") [err.msg]), [url]⟩
        | .ok newsResponse =>
          if newsResponse.Status ≠ str "ok" then
            ⟨none, some (Errorf (str "API returned an error: %s") [newsResponse.Status]), [url]⟩
          else
            ⟨newsResponse.Articles, none, [url]⟩

/-! ## `net/url`: the query string of a request -/

/-- `strings.Cut(s, sep)` for a one-byte separator: the text before the first
separator, the text after it, and whether the separator occurs. -/
def cut (sep : Byte) : GoString → GoString × GoString × Bool
  | [] => ([], [], false)
  | c :: rest =>
    if c = sep then ([], rest, true)
    else
      let r := cut sep rest
      (c :: r.1, r.2.1, r.2.2)

/-- Value of a hexadecimal digit (`unhex` of `net/url`), if it is one. -/
def unhex (c : Byte) : Option Nat :=
  if ch '0' ≤ c ∧ c ≤ ch '9' then some (c.val - 48)
  else if ch 'a' ≤ c ∧ c ≤ ch 'f' then some (c.val - 97 + 10)
  else if ch 'A' ≤ c ∧ c ≤ ch 'F' then some (c.val - 65 + 10)
  else none

/-- `url.QueryUnescape`: `%XX` becomes the byte `XX`, `+` becomes a space; a
percent sign not followed by two hexadecimal digits is an error (`none`). -/
def QueryUnescape : GoString → Option GoString
  | [] => some []
  | c :: rest =>
    if c = ch '%' then
      match rest with
      | h :: l :: rest2 =>
        match unhex h, unhex l with
        | some a, some b => (QueryUnescape rest2).map (fun t => Fin.ofNat (16 * a + b) :: t)
        | _, _ => none
      | _ => none
    else if c = ch '+' then (QueryUnescape rest).map (fun t => ch ' ' :: t)
    else (QueryUnescape rest).map (fun t => c :: t)

/-- The pieces of a query string between `&` separators, in order. -/
def splitAmp : GoString → List GoString
  | [] => [[]]
  | c :: rest =>
    if c = ch '&' then [] :: splitAmp rest
    else
      match splitAmp rest with
      | [] => [[c]]
      | seg :: segs => (c :: seg) :: segs

/-- One iteration of the loop of `url.ParseQuery`: the decoded `key=value` pair
of a piece, or nothing when the piece is skipped (it holds a semicolon, is
empty, or does not unescape). -/
def parsePair (piece : GoString) : Option (GoString × GoString) :=
  if ch ';' ∈ piece then none
  else if piece = [] then none
  else
    let kv := cut (ch '=') piece
    match QueryUnescape kv.1, QueryUnescape kv.2.1 with
    | some key, some value => some (key, value)
    | _, _ => none

/-- `url.Values` as the decoded pairs in order of appearance (`URL.Query()`
drops the parse error and keeps the pairs that parsed). -/
def ParseQuery (query : GoString) : List (GoString × GoString) :=
  (splitAmp query).filterMap parsePair

/-- `Values.Get`: the first value recorded for the key, empty if there is
none. -/
def Values.Get (v : List (GoString × GoString)) (key : GoString) : GoString :=
  (lookupFirst v key).getD []

/-- Raw query of a URL as `url.Parse` splits it: the fragment after the first
`#` is removed, the query is what follows the first `?`. -/
def rawQueryOf (url : GoString) : GoString :=
  (cut (ch '?') (cut (ch '#') url).1).2.1

/-- Inbound request: only the raw query string of `r.URL` is read. -/
structure Request where
  RawQuery : GoString
  deriving DecidableEq

/-! ## `net/http`: the response writer -/

/-- State of an `http.ResponseWriter`: the header entries the handler has set,
whether the status line was sent, the status, and the body sent so far. -/
structure ResponseWriter where
  header : List (GoString × GoString)
  wroteHeader : Bool
  status : Nat
  body : GoString
  deriving DecidableEq

/-- Fresh writer handed to a handler: nothing sent yet. -/
def ResponseWriter.fresh : ResponseWriter :=
  ⟨[], false, 0, []⟩

/-- `Header().Set`: effective only while the header has not been sent. -/
def ResponseWriter.setHeader (w : ResponseWriter) (key value : GoString) : ResponseWriter :=
  if w.wroteHeader then w
  else { w with header := (w.header.filter (fun kv => kv.1 ≠ key)) ++ [(key, value)] }

/-- `Header().Del`: effective only while the header has not been sent. -/
def ResponseWriter.delHeader (w : ResponseWriter) (key : GoString) : ResponseWriter :=
  if w.wroteHeader then w
  else { w with header := w.header.filter (fun kv => kv.1 ≠ key) }

/-- `WriteHeader(code)`: the first call fixes the status, later calls are
ignored. -/
def ResponseWriter.WriteHeader (w : ResponseWriter) (code : Nat) : ResponseWriter :=
  if w.wroteHeader then w else { w with wroteHeader := true, status := code }

/-- `Write(p)`: sends status 200 first if no status was sent, then the bytes. -/
def ResponseWriter.Write (w : ResponseWriter) (p : GoString) : ResponseWriter :=
  let w1 := w.WriteHeader 200
  { w1 with body := w1.body ++ p }

/-- `http.StatusInternalServerError`. -/
def StatusInternalServerError : Nat := 500

/-- `http.Error(w, error, code)`: plain-text headers, the status, then the
text followed by a newline (`fmt.Fprintln`). -/
def httpError (w : ResponseWriter) (error : GoString) (code : Nat) : ResponseWriter :=
  let w1 := w.delHeader (str "Content-Length")
  let w2 := w1.setHeader (str "Content-Type") (str "text/plain; charset=utf-8")
  let w3 := w2.setHeader (str "X-Content-Type-Options") (str "nosniff")
  let w4 := w3.WriteHeader code
  w4.Write (error ++ str "\n")

/-! ## `html/template`: the escapers the template's actions pass through -/

/-- The table `htmlReplacementTable` of `html/template`: the replacement of a
byte, empty when the byte is kept. -/
def htmlReplacementTable (b : Byte) : GoString :=
  if b = 0 then str "\uFFFD"
  else if b = ch '"' then str "&#34;"
  else if b = ch '&' then str "&amp;"
  else if b = ch '\'' then str "&#39;"
  else if b = ch '+' then str "&#43;"
  else if b = ch '<' then str "&lt;"
  else if b = ch '>' then str "&gt;"
  else []

/-- The function `htmlReplacer` with `badRunes = true`: every byte that has an
entry in the table is replaced by it.  (The table holds ASCII code points only
and a multi-byte UTF-8 sequence has no ASCII byte, so decoding runes and
replacing bytes agree.) -/
def htmlReplacer (s : GoString) : GoString :=
  s.flatMap (fun b => if htmlReplacementTable b = [] then [b] else htmlReplacementTable b)

/-- The escaper `_html_template_htmlescaper` on a plain string. -/
def htmlEscaper (s : GoString) : GoString :=
  htmlReplacer s

/-- The escaper `_html_template_attrescaper` on a plain string. -/
def attrEscaper (s : GoString) : GoString :=
  htmlReplacer s

/-- ASCII lower-case form of a byte. -/
def toLowerASCII (b : Byte) : Byte :=
  if ch 'A' ≤ b ∧ b ≤ ch 'Z' then Fin.ofNat (b.val + 32) else b

/-- `strings.EqualFold(s, t)` for a lower-case ASCII word `t`: letters match in
either case, and under Unicode simple folding `s` is also matched by U+017F
and `k` by U+212A. -/
def equalFoldASCII : GoString → GoString → Bool
  | [], [] => true
  | [], _ :: _ => false
  | _ :: _, [] => false
  | b :: s, c :: t =>
    if toLowerASCII b = c then equalFoldASCII s t
    else if c = ch 's' ∧ b = 0xC5 then
      match s with
      | b2 :: s2 => b2 = 0xBF ∧ equalFoldASCII s2 t
      | [] => false
    else if c = ch 'k' ∧ b = 0xE2 then
      match s with
      | b2 :: b3 :: s3 => b2 = 0x84 ∧ b3 = 0xAA ∧ equalFoldASCII s3 t
      | _ => false
    else false

/-- The function `isSafeURL`: a URL is unsafe when it has a protocol (text
before the first colon holding no slash) other than http, https or mailto. -/
def isSafeURL (s : GoString) : Bool :=
  let c := cut (ch ':') s
  if c.2.2 ∧ ch '/' ∉ c.1 then
    equalFoldASCII c.1 (str "http") || equalFoldASCII c.1 (str "https")
      || equalFoldASCII c.1 (str "mailto")
  else true

/-- The escaper `_html_template_urlfilter` on a plain string: an unsafe URL is
replaced by `#ZgotmplZ`. -/
def urlFilter (s : GoString) : GoString :=
  if isSafeURL s then s else str "#" ++ str "ZgotmplZ"

/-- Lower-case hexadecimal digit of a value below 16. -/
def hexDigit (n : Nat) : Byte :=
  if n < 10 then Fin.ofNat (48 + n) else Fin.ofNat (87 + n)

/-- Whether `isHex` of `html/template` accepts the byte. -/
def isHex (c : Byte) : Bool :=
  (ch '0' ≤ c ∧ c ≤ ch '9') || (ch 'a' ≤ c ∧ c ≤ ch 'f') || (ch 'A' ≤ c ∧ c ≤ ch 'F')

/-- Bytes that `processURLOnto` with `norm = true` copies unchanged whatever
follows them: reserved and unreserved characters of RFC 3986. -/
def urlKeep (c : Byte) : Bool :=
  c ∈ str "!#$&*+,/:;=?@[]" || c ∈ str "-._~"
    || (ch 'a' ≤ c ∧ c ≤ ch 'z') || (ch 'A' ≤ c ∧ c ≤ ch 'Z') || (ch '0' ≤ c ∧ c ≤ ch '9')

/-- Whether the two bytes after a percent sign are hexadecimal digits
(`i+2 < len(s) && isHex(s[i+1]) && isHex(s[i+2])`). -/
def startsEscape : GoString → Bool
  | h :: l :: _ => isHex h && isHex l
  | _ => false

/-- The escaper `_html_template_urlnormalizer` (`processURLOnto` with
`norm = true`): a byte is copied when it is kept or starts a valid `%XX`
escape, and written as `%xx` otherwise. -/
def urlNormalizer : GoString → GoString
  | [] => []
  | c :: rest =>
    if urlKeep c then c :: urlNormalizer rest
    else if c = ch '%' ∧ startsEscape rest then c :: urlNormalizer rest
    else ch '%' :: hexDigit (c.val / 16) :: hexDigit (c.val % 16) :: urlNormalizer rest

/-- An escaper function that `html/template` appends to an action's pipeline. -/
inductive Escaper where
  | urlfilter
  | urlnormalizer
  | attrescaper
  | htmlescaper
  deriving DecidableEq, Repr

/-- Application of one escaper to a string. -/
def Escaper.apply : Escaper → GoString → GoString
  | .urlfilter, s => urlFilter s
  | .urlnormalizer, s => urlNormalizer s
  | .attrescaper, s => attrEscaper s
  | .htmlescaper, s => htmlEscaper s

/-! ## `time`: the one layout the template uses -/

/-- The function `appendInt` of package `time`: decimal digits, padded with
zeros to the width. -/
def appendInt (x width : Nat) : GoString :=
  let digits := (Nat.toDigits 10 x).map ch
  List.replicate (width - digits.length) (ch '0') ++ digits

/-- The layout of the template's `Format` call. -/
def layoutDateTime : GoString :=
  str "2006-01-02 15:04:05"

/-- `Time.Format` for `layoutDateTime`. -/
def formatDateTime (t : GoTime) : GoString :=
  appendInt t.year 4 ++ str "-" ++ appendInt t.month 2 ++ str "-" ++ appendInt t.day 2
    ++ str " " ++ appendInt t.hour 2 ++ str ":" ++ appendInt t.minute 2 ++ str ":"
    ++ appendInt t.second 2

/-! ## `text/template`: values, parse tree and execution -/

/-- Data a template is executed on. -/
inductive Value where
  | string (s : GoString)
  | time (t : GoTime)
  | slice (xs : List Value)
  | struct (fields : List (String × Value))

/-- Pipeline of an action: a field of the dot, or a method call on a field
chain with string arguments. -/
inductive Expr where
  | field (name : String)
  | call (recv : Expr) (method : String) (args : List GoString)

/-- Node of a parsed template, after the contextual escaping pass has appended
the escapers to each action. -/
inductive Node where
  | text (s : GoString)
  | action (pipe : Expr) (escapers : List Escaper)
  | range (pipe : Expr) (body : List Node)

/-- Field of a struct value by name. -/
def Value.lookup : List (String × Value) → String → Option Value
  | [], _ => none
  | (k, v) :: rest, name => if k = name then some v else Value.lookup rest name

/-- Evaluation of a pipeline against the dot.  Only what the program's
template uses is evaluated (struct fields, and `Format` with
`layoutDateTime` on a time); anything else is an execution error. -/
def Expr.eval : Expr → Value → Except GoError Value
  | .field name, .struct fields =>
    match Value.lookup fields name with
    | some v => .ok v
    | none => .error ⟨str "can't evaluate field"⟩
  | .field _, _ => .error ⟨str "can't evaluate field"⟩
  | .call recv method args, dot =>
    match Expr.eval recv dot with
    | .error e => .error e
    | .ok (.time t) =>
      if method = "Format" ∧ args = [layoutDateTime] then .ok (.string (formatDateTime t))
      else .error ⟨str "can't evaluate method"⟩
    | .ok _ => .error ⟨str "can't evaluate method"⟩

/-- Escapers of an action applied left to right to a string result. -/
def applyEscapers (escapers : List Escaper) (s : GoString) : GoString :=
  escapers.foldl (fun acc e => e.apply acc) s

mutual
/-- Execution of one node: text is written as it stands, an action writes its
escaped string value, a range executes its body once per element with the
element as the dot.  The first error stops the execution; what was written
stays written.  Values other than strings are not printed here: the
program's template prints strings only. -/
def Node.exec : Node → Value → ResponseWriter → ResponseWriter × Option GoError
  | .text s, _, w => (w.Write s, none)
  | .action pipe escapers, dot, w =>
    match pipe.eval dot with
    | .ok (.string s) => (w.Write (applyEscapers escapers s), none)
    | .ok _ => (w, some ⟨str "can't print value"⟩)
    | .error e => (w, some e)
  | .range pipe body, dot, w =>
    match pipe.eval dot with
    | .ok (.slice xs) =>
      xs.foldl (fun (acc : ResponseWriter × Option GoError) x =>
        match acc.2 with
        | some e => (acc.1, some e)
        | none => Node.execList body x acc.1) (w, none)
    | .ok _ => (w, some ⟨str "range can't iterate"⟩)
    | .error e => (w, some e)
/-- Execution of a list of nodes in order. -/
def Node.execList : List Node → Value → ResponseWriter → ResponseWriter × Option GoError
  | [], _, w => (w, none)
  | n :: rest, dot, w =>
    match Node.exec n dot w with
    | (w1, some e) => (w1, some e)
    | (w1, none) => Node.execList rest dot w1
end

/-! ## `newsHandler` (lines 62-119) -/

/-- Template text of lines 74-83, up to the opening quote of the form's
`value` attribute. -/
def pageHead : GoString :=
  str "\n        <!DOCTYPE html>\n        <html>\n        <head>\n                <title>Financial News</title>\n                <script src=\"https://unpkg.com/htmx.org@1.9.4\"></script>\n        </head>\n        <body>\n            <form hx-get=\"/\" hx-target=\"#news-container\" hx-indicator=\"#loading\">\n                <input type=\"text\" name=\"q\" placeholder=\"Enter query\" value=\""

/-- Template text of lines 83-88, between the query and the range. -/
def pageMid : GoString :=
  str "\">\n                <button type=\"submit\">Search</button>\n            </form>\n            <div id=\"loading\" class=\"htmx-indicator\">Loading...</div>\n                <div id=\"news-container\">\n                        "

/-- Template text of lines 96-100, after the range. -/
def pageTail : GoString :=
  str "\n                </div>\n        </body>\n        </html>\n        "

/-- Text that opens an article block, up to the opening quote of `href`. -/
def blockOpen : GoString :=
  str "\n                                <div>\n                                        <h3><a href=\""

/-- Text between the `href` value and the link text. -/
def linkMid : GoString :=
  str "\" target=\"_blank\">"

/-- Text between the link text and the timestamp. -/
def linkClose : GoString :=
  str "</a></h3>\n                    <p>"

/-- Text between two paragraphs of a block. -/
def paragraphBreak : GoString :=
  str "</p>\n                                        <p>"

/-- Text that closes an article block. -/
def blockClose : GoString :=
  str "</p>\n                                        <hr>\n                                </div>\n                        "

/-- Body of `range .Articles` (lines 88-96).  Each action carries the escapers
of its context: `.URL` stands at the start of a quoted URL attribute, the
others in element text. -/
def articleTemplate : List Node :=
  [ .text blockOpen,
    .action (.field "URL") [.urlfilter, .urlnormalizer, .attrescaper],
    .text linkMid,
    .action (.field "Title") [.htmlescaper],
    .text linkClose,
    .action (.call (.field "PublishedAt") "Format" [str "2006-01-02 15:04:05"]) [.htmlescaper],
    .text (str " - "),
    .action (.field "SourceName") [.htmlescaper],
    .text paragraphBreak,
    .action (.field "Description") [.htmlescaper],
    .text paragraphBreak,
    .action (.field "Content") [.htmlescaper],
    .text blockClose ]

/-- Parse tree of the template text of lines 74-100; `.Query` stands in a
quoted attribute value and carries the attribute escaper. -/
def newsTemplate : List Node :=
  [ .text pageHead,
    .action (.field "Query") [.attrescaper],
    .text pageMid,
    .range (.field "Articles") articleTemplate,
    .text pageTail ]

/-- Result of `template.New("news").Parse` on the literal template text. -/
def parseNewsTemplate : Except GoError (List Node) :=
  .ok newsTemplate

/-- A `NewsArticle` as the template sees it. -/
def NewsArticle.toValue (a : NewsArticle) : Value :=
  .struct [("Title", .string a.Title), ("Description", .string a.Description),
    ("Content", .string a.Content), ("PublishedAt", .time a.PublishedAt),
    ("SourceName", .string a.SourceName), ("URL", .string a.URL)]

/-- The anonymous struct `data` of lines 106-112 as the template sees it. -/
def pageData (articles : Slice NewsArticle) (query : GoString) : Value :=
  .struct [("Articles", .slice (articles.elems.map NewsArticle.toValue)),
    ("Query", .string query)]

/-- What one call of `newsHandler` does: the response it leaves in the writer,
the arguments of its calls of `fetchNews`, and the URLs handed to
`http.Get`. -/
structure HandlerResult where
  w : ResponseWriter
  fetched : List GoString
  requested : List GoString
  deriving DecidableEq

/-- The query the handler works with (lines 63-66). -/
def handlerQuery (r : Request) : GoString :=
  let query := Values.Get (ParseQuery r.RawQuery) (str "q")
  if query = str "" then str "finance" else query

/-- The function `newsHandler` of `src/main.go`. -/
def newsHandler (rt : Runtime) (w : ResponseWriter) (r : Request) : HandlerResult :=
  let query := handlerQuery r
  let res := fetchNews rt query
  match res.err with
  | some err =>
    ⟨httpError w (Sprintf (str "Error fetching news: %v") [err.msg]) StatusInternalServerError,
      [query], res.requested⟩
  | none =>
    match parseNewsTemplate with
    | .error err =>
      ⟨httpError w (Sprintf (str "Error parsing template: %v") [err.msg])
        StatusInternalServerError, [query], res.requested⟩
    | .ok tmpl =>
      let data := pageData res.articles query
      match Node.execList tmpl data w with
      | (w1, some err) =>
        ⟨httpError w1 (Sprintf (str "Error executing template: %v") [err.msg])
          StatusInternalServerError, [query], res.requested⟩
      | (w1, none) => ⟨w1, [query], res.requested⟩

/-! ## Vocabulary of the statements -/

/-- URL that `fetchNews` builds for a query and a credential, written as a
concatenation. -/
def requestURL (query apiKey : GoString) : GoString :=
  str "https://newsapi.org/v2/everything?q=" ++ query ++ str "&apiKey=" ++ apiKey

/-- The four stages of `fetchNews` all pass: the credential is set, the
outbound call and the body read complete, the body decodes, and the decoded
status is `ok`. -/
def allStagesPass (rt : Runtime) (query : GoString) : Prop :=
  Getenv rt.environ (str "NEWS_API_KEY") ≠ str "" ∧
    ∃ resp body r,
      rt.httpGet (requestURL query (Getenv rt.environ (str "NEWS_API_KEY"))) = .ok resp ∧
      resp.Body = .ok body ∧ rt.jsonUnmarshal body = .ok r ∧ r.Status = str "ok"

/-- The `q` parameter read back from the text of a URL: the first value of `q`
in the query that follows the first `?`, fragment removed.  Whether
`url.Parse` accepts the URL at all is the matter of `parseRawQuery`. -/
def searchParam (url : GoString) : GoString :=
  Values.Get (ParseQuery (rawQueryOf url)) (str "q")

/-- The bytes `stringContainsCTLByte` of `net/url` looks for: below 0x20, and
0x7f. -/
def isCTL (b : Byte) : Bool :=
  b < 0x20 || b = 0x7f

/-- Whether every percent sign of a fragment starts a `%XX` escape, which is
what `URL.setFragment` demands of it. -/
def escapesValid : GoString → Bool
  | [] => true
  | c :: rest =>
    if c = ch '%' then
      match rest with
      | h :: l :: rest2 => (unhex h).isSome && (unhex l).isSome && escapesValid rest2
      | _ => false
    else escapesValid rest

/-- Raw query that `url.Parse` (and so `http.Get`) finds in a URL whose scheme,
host and path are the ones `fetchNews` writes, or nothing when `url.Parse`
rejects the URL: the text before the first `#` holds a control byte, or the
fragment after it is not empty and holds a percent sign that starts no
escape. -/
def parseRawQuery (url : GoString) : Option GoString :=
  let c := cut (ch '#') url
  if c.1.any isCTL then none
  else if c.2.1 ≠ [] ∧ escapesValid c.2.1 = false then none
  else some (rawQueryOf url)

/-- The `q` parameter of a URL as `net/url` parses it (`Query().Get("q")` of
the parsed URL), or nothing when the URL does not parse. -/
def parsedSearchParam (url : GoString) : Option GoString :=
  (parseRawQuery url).map (fun raw => Values.Get (ParseQuery raw) (str "q"))

/-- A query none of whose bytes is a separator or an escape of a URL query. -/
def queryPlain (q : GoString) : Prop :=
  ∀ b ∈ q, b ≠ ch '&' ∧ b ≠ ch '#' ∧ b ≠ ch ';' ∧ b ≠ ch '%' ∧ b ≠ ch '+'

/-- Text one article contributes to the page: what executing the body of the
range writes with the article as the dot. -/
def articleBlock (a : NewsArticle) : GoString :=
  (Node.execList articleTemplate a.toValue ResponseWriter.fresh).1.body

/-- Number of positions of a text at which a pattern starts. -/
def countOcc (pat : GoString) : GoString → Nat
  | [] => 0
  | c :: rest => countOcc pat rest + (if pat.isPrefixOf (c :: rest) then 1 else 0)

/-- A string no byte of which has an entry in `htmlReplacementTable`. -/
def htmlPlain (s : GoString) : Prop :=
  ∀ b ∈ s, htmlReplacementTable b = []

/-- A string made of bytes that both the URL normalizer and the attribute
escaper copy unchanged. -/
def urlPlain (s : GoString) : Prop :=
  ∀ b ∈ s, urlKeep b = true ∧ htmlReplacementTable b = []

/-! ## Sample inputs -/

/-- A runtime whose network gives one reply to every URL and whose decoder
gives one result for every body. -/
def constRuntime (environ : List (GoString × GoString)) (reply : Except GoError HttpResponse)
    (decoded : Except GoError NewsResponse) : Runtime :=
  ⟨environ, fun _ => reply, fun _ => decoded⟩

/-- An article with plain text and a plain https URL. -/
def sampleArticle : NewsArticle :=
  ⟨str "Markets rally", str "Stocks rose.", str "Full text", ⟨2024, 3, 5, 7, 8, 9⟩,
    str "Wire", str "https://example.com/a"⟩

/-- An article whose URL has the `javascript` protocol. -/
def scriptArticle : NewsArticle :=
  ⟨str "x", str "", str "", GoTime.zero, str "", str "javascript:alert(1)"⟩

/-- A runtime with a credential whose upstream answers 200 with a body that
decodes to status `error` and still carries an article. -/
def upstreamErrorRuntime : Runtime :=
  constRuntime [(str "NEWS_API_KEY", str "secret")]
    (.ok ⟨200, .ok (str "\x7b\"status\":\"error\"\x7d")⟩)
    (.ok ⟨str "error", 1, some [sampleArticle]⟩)

/-- A runtime with a credential whose upstream answers with two articles. -/
def okRuntime : Runtime :=
  constRuntime [(str "NEWS_API_KEY", str "secret")]
    (.ok ⟨200, .ok (str "\x7b\"status\":\"ok\"\x7d")⟩)
    (.ok ⟨str "ok", 2, some [sampleArticle, scriptArticle]⟩)

/-- A runtime without the credential whose network would answer. -/
def noKeyRuntime : Runtime :=
  constRuntime [(str "HOME", str "/root")]
    (.ok ⟨200, .ok (str "\x7b\"status\":\"ok\"\x7d")⟩)
    (.ok ⟨str "ok", 2, some [sampleArticle, scriptArticle]⟩)

/-- A runtime with a credential whose upstream answers with the empty JSON
object, decoded to the zero `NewsResponse`. -/
def emptyObjectRuntime : Runtime :=
  constRuntime [(str "NEWS_API_KEY", str "secret")]
    (.ok ⟨200, .ok (str "\x7b\x7d")⟩)
    (.ok ⟨str "", 0, none⟩)

/-- A request without any query string. -/
def bareRequest : Request :=
  ⟨str ""⟩

/-- A request whose `q` parameter holds an escaped ampersand and a space. -/
def searchRequest : Request :=
  ⟨str "q=R%26D+news&page=2"⟩

/-- A request whose `q` parameter is a plain word. -/
def plainRequest : Request :=
  ⟨str "q=tesla"⟩

/-- A request whose `q` parameter is `a&b`, the ampersand escaped as the
query syntax of the inbound URL requires. -/
def ampersandRequest : Request :=
  ⟨str "q=a%26b"⟩

/-! ## Formatting lemmas -/

theorem Sprintf_requestURL (query apiKey : GoString) :
    Sprintf (str "https://newsapi.org/v2/everything?q=%s&apiKey=%s") [query, apiKey]
      = requestURL query apiKey := by
  have h : Sprintf (str "https://newsapi.org/v2/everything?q=%s&apiKey=%s") [query, apiKey]
      = str "https://newsapi.org/v2/everything?q=" ++ (query ++ (str "&apiKey=" ++ (apiKey ++ []))) :=
    rfl
  rw [h, requestURL]
  simp

theorem Errorf_config :
    Errorf (str "NEWS_API_KEY environment variable not set") []
      = ⟨str "NEWS_API_KEY environment variable not set"⟩ := by
  decide

theorem Errorf_network (s : GoString) :
    Errorf (str "HTTP request failed: %w") [s] = ⟨str "HTTP request failed: " ++ s⟩ := by
  have h : Errorf (str "HTTP request failed: %w") [s]
      = ⟨str "HTTP request failed: " ++ (s ++ [])⟩ := rfl
  rw [h]; simp

theorem Errorf_read (s : GoString) :
    Errorf (str "Reading response body failed: %w") [s]
      = ⟨str "Reading response body failed: " ++ s⟩ := by
  have h : Errorf (str "Reading response body failed: %w") [s]
      = ⟨str "Reading response body failed: " ++ (s ++ [])⟩ := rfl
  rw [h]; simp

theorem Errorf_decode (s : GoString) :
    Errorf (str "JSON unmarshaling failed: %w") [s]
      = ⟨str "JSON unmarshaling failed: " ++ s⟩ := by
  have h : Errorf (str "JSON unmarshaling failed: %w") [s]
      = ⟨str "JSON unmarshaling failed: " ++ (s ++ [])⟩ := rfl
  rw [h]; simp

theorem Errorf_upstream (s : GoString) :
    Errorf (str "API returned an error: %s") [s] = ⟨str "API returned an error: " ++ s⟩ := by
  have h : Errorf (str "API returned an error: %s") [s]
      = ⟨str "API returned an error: " ++ (s ++ [])⟩ := rfl
  rw [h]; simp

/-! ## The five outcomes of `fetchNews` -/

theorem fetchNews_of_no_key (rt : Runtime) (query : GoString)
    (hkey : Getenv rt.environ (str "NEWS_API_KEY") = str "") :
    fetchNews rt query
      = ⟨none, some ⟨str "NEWS_API_KEY environment variable not set"⟩, []⟩ := by
  unfold fetchNews
  simp only [hkey, if_true, Errorf_config]

theorem fetchNews_of_get_error (rt : Runtime) (query : GoString) (e : GoError)
    (hkey : Getenv rt.environ (str "NEWS_API_KEY") ≠ str "")
    (hget : rt.httpGet (requestURL query (Getenv rt.environ (str "NEWS_API_KEY"))) = .error e) :
    fetchNews rt query
      = ⟨none, some ⟨str "HTTP request failed: " ++ e.msg⟩,
          [requestURL query (Getenv rt.environ (str "NEWS_API_KEY"))]⟩ := by
  unfold fetchNews
  simp only [hkey, if_false, Sprintf_requestURL, hget, Errorf_network]

theorem fetchNews_of_read_error (rt : Runtime) (query : GoString) (resp : HttpResponse)
    (e : GoError) (hkey : Getenv rt.environ (str "NEWS_API_KEY") ≠ str "")
    (hget : rt.httpGet (requestURL query (Getenv rt.environ (str "NEWS_API_KEY"))) = .ok resp)
    (hbody : resp.Body = .error e) :
    fetchNews rt query
      = ⟨none, some ⟨str "Reading response body failed: " ++ e.msg⟩,
          [requestURL query (Getenv rt.environ (str "NEWS_API_KEY"))]⟩ := by
  unfold fetchNews
  simp only [hkey, if_false, Sprintf_requestURL, hget, hbody, Errorf_read]

theorem fetchNews_of_decode_error (rt : Runtime) (query : GoString) (resp : HttpResponse)
    (body : GoString) (e : GoError) (hkey : Getenv rt.environ (str "NEWS_API_KEY") ≠ str "")
    (hget : rt.httpGet (requestURL query (Getenv rt.environ (str "NEWS_API_KEY"))) = .ok resp)
    (hbody : resp.Body = .ok body) (hjson : rt.jsonUnmarshal body = .error e) :
    fetchNews rt query
      = ⟨none, some ⟨str "JSON unmarshaling failed: " ++ e.msg⟩,
          [requestURL query (Getenv rt.environ (str "NEWS_API_KEY"))]⟩ := by
  unfold fetchNews
  simp only [hkey, if_false, Sprintf_requestURL, hget, hbody, hjson, Errorf_decode]

theorem fetchNews_of_bad_status (rt : Runtime) (query : GoString) (resp : HttpResponse)
    (body : GoString) (r : NewsResponse) (hkey : Getenv rt.environ (str "NEWS_API_KEY") ≠ str "")
    (hget : rt.httpGet (requestURL query (Getenv rt.environ (str "NEWS_API_KEY"))) = .ok resp)
    (hbody : resp.Body = .ok body) (hjson : rt.jsonUnmarshal body = .ok r)
    (hstatus : r.Status ≠ str "ok") :
    fetchNews rt query
      = ⟨none, some ⟨str "API returned an error: " ++ r.Status⟩,
          [requestURL query (Getenv rt.environ (str "NEWS_API_KEY"))]⟩ := by
  unfold fetchNews
  simp only [hkey, if_false, Sprintf_requestURL, hget, hbody, hjson, Errorf_upstream, ne_eq,
    hstatus, not_false_eq_true, if_true]

theorem fetchNews_of_ok (rt : Runtime) (query : GoString) (resp : HttpResponse)
    (body : GoString) (r : NewsResponse) (hkey : Getenv rt.environ (str "NEWS_API_KEY") ≠ str "")
    (hget : rt.httpGet (requestURL query (Getenv rt.environ (str "NEWS_API_KEY"))) = .ok resp)
    (hbody : resp.Body = .ok body) (hjson : rt.jsonUnmarshal body = .ok r)
    (hstatus : r.Status = str "ok") :
    fetchNews rt query
      = ⟨r.Articles, none, [requestURL query (Getenv rt.environ (str "NEWS_API_KEY"))]⟩ := by
  unfold fetchNews
  simp only [hkey, if_false, Sprintf_requestURL, hget, hbody, hjson, ne_eq,
    hstatus, not_true_eq_false, if_false]

theorem fetchNews_requested (rt : Runtime) (q : GoString)
    (hkey : Getenv rt.environ (str "NEWS_API_KEY") ≠ str "") :
    (fetchNews rt q).requested = [requestURL q (Getenv rt.environ (str "NEWS_API_KEY"))] := by
  cases hget : rt.httpGet (requestURL q (Getenv rt.environ (str "NEWS_API_KEY"))) with
  | error e => rw [fetchNews_of_get_error rt q e hkey hget]
  | ok resp =>
    cases hbody : resp.Body with
    | error e => rw [fetchNews_of_read_error rt q resp e hkey hget hbody]
    | ok body =>
      cases hjson : rt.jsonUnmarshal body with
      | error e => rw [fetchNews_of_decode_error rt q resp body e hkey hget hbody hjson]
      | ok r =>
        by_cases hstatus : r.Status = str "ok"
        · rw [fetchNews_of_ok rt q resp body r hkey hget hbody hjson hstatus]
        · rw [fetchNews_of_bad_status rt q resp body r hkey hget hbody hjson hstatus]

theorem fetchNews_ok_inv (rt : Runtime) (query : GoString)
    (hok : (fetchNews rt query).err = none) :
    Getenv rt.environ (str "NEWS_API_KEY") ≠ str "" ∧
    ∃ resp body r,
      rt.httpGet (requestURL query (Getenv rt.environ (str "NEWS_API_KEY"))) = .ok resp ∧
      resp.Body = .ok body ∧ rt.jsonUnmarshal body = .ok r ∧ r.Status = str "ok" ∧
      (fetchNews rt query).articles = r.Articles := by
  by_cases hkey : Getenv rt.environ (str "NEWS_API_KEY") = str ""
  · rw [fetchNews_of_no_key rt query hkey] at hok
    simp at hok
  · refine ⟨hkey, ?_⟩
    cases hget : rt.httpGet (requestURL query (Getenv rt.environ (str "NEWS_API_KEY"))) with
    | error e =>
      rw [fetchNews_of_get_error rt query e hkey hget] at hok
      simp at hok
    | ok resp =>
      cases hbody : resp.Body with
      | error e =>
        rw [fetchNews_of_read_error rt query resp e hkey hget hbody] at hok
        simp at hok
      | ok body =>
        cases hjson : rt.jsonUnmarshal body with
        | error e =>
          rw [fetchNews_of_decode_error rt query resp body e hkey hget hbody hjson] at hok
          simp at hok
        | ok r =>
          by_cases hstatus : r.Status = str "ok"
          · refine ⟨resp, body, r, rfl, hbody, hjson, hstatus, ?_⟩
            rw [fetchNews_of_ok rt query resp body r hkey hget hbody hjson hstatus]
          · rw [fetchNews_of_bad_status rt query resp body r hkey hget hbody hjson hstatus] at hok
            simp at hok

theorem Getenv_of_lookup (environ : List (GoString × GoString)) (key : GoString)
    (h : LookupEnv environ key = none ∨ LookupEnv environ key = some (str "")) :
    Getenv environ key = str "" := by
  unfold Getenv
  rcases h with h | h <;> rw [h] <;> rfl

/-- C1: with a credential, a completed call and a body that decodes to a
response whose status is not `ok`, `fetchNews` returns nil articles and the
error `API returned an error: ` followed by the status, whatever the
transport status code and the decoded articles are. -/
theorem fetchNews_fails_on_non_ok_status (rt : Runtime) (query : GoString)
    (resp : HttpResponse) (body : GoString) (r : NewsResponse)
    (hkey : Getenv rt.environ (str "NEWS_API_KEY") ≠ str "")
    (hget : rt.httpGet (requestURL query (Getenv rt.environ (str "NEWS_API_KEY"))) = .ok resp)
    (hbody : resp.Body = .ok body) (hjson : rt.jsonUnmarshal body = .ok r)
    (hstatus : r.Status ≠ str "ok") :
    (fetchNews rt query).articles = none ∧
      (fetchNews rt query).err = some ⟨str "API returned an error: " ++ r.Status⟩ := by
  rw [fetchNews_of_bad_status rt query resp body r hkey hget hbody hjson hstatus]
  exact ⟨rfl, rfl⟩

theorem fetchNews_fails_on_non_ok_status_witness :
    (fetchNews upstreamErrorRuntime (str "tesla")).articles = none ∧
      (fetchNews upstreamErrorRuntime (str "tesla")).err
        = some ⟨str "API returned an error: error"⟩ :=
  fetchNews_fails_on_non_ok_status upstreamErrorRuntime (str "tesla")
    ⟨200, .ok (str "\x7b\"status\":\"error\"\x7d")⟩ (str "\x7b\"status\":\"error\"\x7d")
    ⟨str "error", 1, some [sampleArticle]⟩ (by decide) rfl rfl rfl (by decide)

/-- C2: whenever `fetchNews` returns a nil error, the call completed, the body
decoded to a response with status `ok`, and the returned slice is the
`Articles` field of that response, unchanged. -/
theorem fetchNews_success_returns_decoded_articles (rt : Runtime) (query : GoString)
    (hok : (fetchNews rt query).err = none) :
    ∃ resp body r,
      rt.httpGet (requestURL query (Getenv rt.environ (str "NEWS_API_KEY"))) = .ok resp ∧
      resp.Body = .ok body ∧ rt.jsonUnmarshal body = .ok r ∧ r.Status = str "ok" ∧
      (fetchNews rt query).articles = r.Articles :=
  (fetchNews_ok_inv rt query hok).2

theorem fetchNews_success_returns_decoded_articles_witness :
    ∃ resp body r,
      okRuntime.httpGet (requestURL (str "tesla") (Getenv okRuntime.environ (str "NEWS_API_KEY")))
        = .ok resp ∧
      resp.Body = .ok body ∧ okRuntime.jsonUnmarshal body = .ok r ∧ r.Status = str "ok" ∧
      (fetchNews okRuntime (str "tesla")).articles = r.Articles :=
  fetchNews_success_returns_decoded_articles okRuntime (str "tesla") (by decide)

/-- C3: when `NEWS_API_KEY` is unset or set to the empty string, `fetchNews`
returns nil articles and the error `NEWS_API_KEY environment variable not
set`, and hands no URL to the network, whatever the network and the decoder
would have answered. -/
theorem fetchNews_without_credential (rt : Runtime) (query : GoString)
    (hkey : LookupEnv rt.environ (str "NEWS_API_KEY") = none ∨
      LookupEnv rt.environ (str "NEWS_API_KEY") = some (str "")) :
    fetchNews rt query
      = ⟨none, some ⟨str "NEWS_API_KEY environment variable not set"⟩, []⟩ :=
  fetchNews_of_no_key rt query (Getenv_of_lookup _ _ hkey)

theorem fetchNews_without_credential_witness :
    fetchNews noKeyRuntime (str "tesla")
      = ⟨none, some ⟨str "NEWS_API_KEY environment variable not set"⟩, []⟩ :=
  fetchNews_without_credential noKeyRuntime (str "tesla") (Or.inl (by decide))

theorem searchParam_ampersand (apiKey : GoString) :
    searchParam (requestURL (str "a&b") apiKey) = str "a" := by
  rfl

theorem searchParam_hash (apiKey : GoString) :
    searchParam (requestURL (str "a#b") apiKey) = str "a" := by
  rfl

/-- C9: with a non-empty credential the one URL `fetchNews` hands to
`http.Get` is the literal prefix, the query, `&apiKey=` and the credential,
concatenated with no escaping of the query; so for the queries `a&b` and
`a#b` the `q` parameter parsed from that URL is `a`, not the query. -/
theorem fetchNews_request_url_unescaped (rt : Runtime) (query : GoString)
    (hkey : Getenv rt.environ (str "NEWS_API_KEY") ≠ str "") :
    (fetchNews rt query).requested
        = [str "https://newsapi.org/v2/everything?q=" ++ query ++ str "&apiKey="
            ++ Getenv rt.environ (str "NEWS_API_KEY")] ∧
      ((fetchNews rt (str "a&b")).requested.map searchParam = [str "a"] ∧ str "a" ≠ str "a&b") ∧
      ((fetchNews rt (str "a#b")).requested.map searchParam = [str "a"] ∧ str "a" ≠ str "a#b") := by
  have hreq := fun q => fetchNews_requested rt q hkey
  refine ⟨hreq query, ⟨?_, by decide⟩, ⟨?_, by decide⟩⟩
  · rw [hreq, List.map_singleton, searchParam_ampersand]
  · rw [hreq, List.map_singleton, searchParam_hash]

theorem fetchNews_request_url_unescaped_witness :
    (fetchNews okRuntime (str "a b")).requested
        = [str "https://newsapi.org/v2/everything?q=a b&apiKey=secret"] ∧
      ((fetchNews okRuntime (str "a&b")).requested.map searchParam = [str "a"]
        ∧ str "a" ≠ str "a&b") ∧
      ((fetchNews okRuntime (str "a#b")).requested.map searchParam = [str "a"]
        ∧ str "a" ≠ str "a#b") :=
  fetchNews_request_url_unescaped okRuntime (str "a b") (by decide)

/-- C10: `fetchNews` returns a nil error exactly when all four stages pass;
otherwise its error is that of the first stage that fails, in the order
credential, network (call, then body read), decoding, upstream status; and
when the decoder maps the body `{}` to the zero response with no error, that
body yields the upstream error with an empty status. -/
theorem fetchNews_first_failing_stage (rt : Runtime) (query : GoString) :
    ((fetchNews rt query).err = none ↔ allStagesPass rt query) ∧
    (Getenv rt.environ (str "NEWS_API_KEY") = str "" →
      (fetchNews rt query).err = some ⟨str "NEWS_API_KEY environment variable not set"⟩) ∧
    (Getenv rt.environ (str "NEWS_API_KEY") ≠ str "" →
      (∀ e, rt.httpGet (requestURL query (Getenv rt.environ (str "NEWS_API_KEY"))) = .error e →
        (fetchNews rt query).err = some ⟨str "HTTP request failed: " ++ e.msg⟩) ∧
      (∀ resp,
        rt.httpGet (requestURL query (Getenv rt.environ (str "NEWS_API_KEY"))) = .ok resp →
        (∀ e, resp.Body = .error e →
          (fetchNews rt query).err = some ⟨str "Reading response body failed: " ++ e.msg⟩) ∧
        (∀ body, resp.Body = .ok body →
          (∀ e, rt.jsonUnmarshal body = .error e →
            (fetchNews rt query).err = some ⟨str "JSON unmarshaling failed: " ++ e.msg⟩) ∧
          (∀ r, rt.jsonUnmarshal body = .ok r → r.Status ≠ str "ok" →
            (fetchNews rt query).err = some ⟨str "API returned an error: " ++ r.Status⟩) ∧
          (body = str "\x7b\x7d" → rt.jsonUnmarshal body = .ok ⟨str "", 0, none⟩ →
            (fetchNews rt query).err = some ⟨str "API returned an error: "⟩)))) := by
  refine ⟨⟨fun hok => ?_, fun hpass => ?_⟩, fun hkey => ?_, fun hkey => ⟨fun e hget => ?_,
    fun resp hget => ⟨fun e hbody => ?_, fun body hbody => ⟨fun e hjson => ?_,
      fun r hjson hstatus => ?_, fun _ hjson => ?_⟩⟩⟩⟩
  · obtain ⟨hkey, resp, body, r, hget, hbody, hjson, hstatus, _⟩ :=
      fetchNews_ok_inv rt query hok
    exact ⟨hkey, resp, body, r, hget, hbody, hjson, hstatus⟩
  · obtain ⟨hkey, resp, body, r, hget, hbody, hjson, hstatus⟩ := hpass
    rw [fetchNews_of_ok rt query resp body r hkey hget hbody hjson hstatus]
  · rw [fetchNews_of_no_key rt query hkey]
  · rw [fetchNews_of_get_error rt query e hkey hget]
  · rw [fetchNews_of_read_error rt query resp e hkey hget hbody]
  · rw [fetchNews_of_decode_error rt query resp body e hkey hget hbody hjson]
  · rw [fetchNews_of_bad_status rt query resp body r hkey hget hbody hjson hstatus]
  · rw [fetchNews_of_bad_status rt query resp body _ hkey hget hbody hjson (by decide)]
    rfl

theorem fetchNews_first_failing_stage_witness :
    (fetchNews emptyObjectRuntime (str "tesla")).err
      = some ⟨str "API returned an error: "⟩ :=
  (((fetchNews_first_failing_stage emptyObjectRuntime (str "tesla")).2.2 (by decide)).2
    ⟨200, .ok (str "\x7b\x7d")⟩ rfl).2 (str "\x7b\x7d") rfl |>.2.2 rfl rfl

/-! ## Writer lemmas -/

theorem Write_Write (w : ResponseWriter) (p q : GoString) :
    (w.Write p).Write q = w.Write (p ++ q) := by
  unfold ResponseWriter.Write ResponseWriter.WriteHeader
  cases h : w.wroteHeader <;> simp [h]

theorem Write_wroteHeader (w : ResponseWriter) (p : GoString) :
    (w.Write p).wroteHeader = true := by
  unfold ResponseWriter.Write ResponseWriter.WriteHeader
  cases h : w.wroteHeader <;> simp [h]

theorem Write_nil_of_wrote (w : ResponseWriter) (h : w.wroteHeader = true) :
    w.Write [] = w := by
  cases w with
  | mk header wrote status body =>
    simp only at h
    subst h
    simp [ResponseWriter.Write, ResponseWriter.WriteHeader]

theorem Write_fresh (p : GoString) :
    ResponseWriter.fresh.Write p = ⟨[], true, 200, p⟩ := by
  rfl

/-! ## Execution of the template -/

/-- The block of an article, written out. -/
theorem execList_articleTemplate (a : NewsArticle) (w : ResponseWriter) :
    Node.execList articleTemplate a.toValue w
      = (w.Write (blockOpen ++ attrEscaper (urlNormalizer (urlFilter a.URL)) ++ linkMid
          ++ htmlEscaper a.Title ++ linkClose ++ htmlEscaper (formatDateTime a.PublishedAt)
          ++ str " - " ++ htmlEscaper a.SourceName ++ paragraphBreak
          ++ htmlEscaper a.Description ++ paragraphBreak ++ htmlEscaper a.Content
          ++ blockClose), none) := by
  simp [articleTemplate, Node.execList, Node.exec, Expr.eval, Value.lookup, NewsArticle.toValue,
    applyEscapers, Escaper.apply, Write_Write, layoutDateTime]

theorem articleBlock_eq (a : NewsArticle) :
    articleBlock a
      = blockOpen ++ attrEscaper (urlNormalizer (urlFilter a.URL)) ++ linkMid
          ++ htmlEscaper a.Title ++ linkClose ++ htmlEscaper (formatDateTime a.PublishedAt)
          ++ str " - " ++ htmlEscaper a.SourceName ++ paragraphBreak
          ++ htmlEscaper a.Description ++ paragraphBreak ++ htmlEscaper a.Content
          ++ blockClose := by
  unfold articleBlock
  rw [execList_articleTemplate, Write_fresh]

theorem execList_articleTemplate_block (a : NewsArticle) (w : ResponseWriter) :
    Node.execList articleTemplate a.toValue w = (w.Write (articleBlock a), none) := by
  rw [articleBlock_eq, execList_articleTemplate]

/-- The range writes the blocks of the articles one after the other. -/
theorem range_articles (articles : List NewsArticle) (w : ResponseWriter)
    (hw : w.wroteHeader = true) :
    (articles.map NewsArticle.toValue).foldl
        (fun (acc : ResponseWriter × Option GoError) x =>
          match acc.2 with
          | some e => (acc.1, some e)
          | none => Node.execList articleTemplate x acc.1) (w, none)
      = (w.Write (articles.flatMap articleBlock), none) := by
  induction articles generalizing w with
  | nil => simp [Write_nil_of_wrote w hw]
  | cons a rest ih =>
    simp only [List.map_cons, List.foldl_cons, execList_articleTemplate_block]
    rw [ih _ (Write_wroteHeader w _), Write_Write]
    simp

theorem execList_text (s : GoString) (rest : List Node) (dot : Value) (w : ResponseWriter) :
    Node.execList (.text s :: rest) dot w = Node.execList rest dot (w.Write s) := by
  simp [Node.execList, Node.exec]

theorem execList_action (pipe : Expr) (escapers : List Escaper) (rest : List Node)
    (dot : Value) (w : ResponseWriter) (s : GoString) (h : pipe.eval dot = .ok (.string s)) :
    Node.execList (.action pipe escapers :: rest) dot w
      = Node.execList rest dot (w.Write (applyEscapers escapers s)) := by
  simp [Node.execList, Node.exec, h]

theorem execList_range (pipe : Expr) (body rest : List Node) (dot : Value)
    (w w1 : ResponseWriter) (xs : List Value) (h : pipe.eval dot = .ok (.slice xs))
    (hfold : xs.foldl
        (fun (acc : ResponseWriter × Option GoError) x =>
          match acc.2 with
          | some e => (acc.1, some e)
          | none => Node.execList body x acc.1) (w, none) = (w1, none)) :
    Node.execList (.range pipe body :: rest) dot w = Node.execList rest dot w1 := by
  simp [Node.execList, Node.exec, h, hfold]

/-- Execution of the whole template never fails and writes the head, the
escaped query, the blocks of the articles in order, and the tail. -/
theorem execList_newsTemplate (articles : Slice NewsArticle) (query : GoString)
    (w : ResponseWriter) :
    Node.execList newsTemplate (pageData articles query) w
      = (w.Write (pageHead ++ attrEscaper query ++ pageMid
          ++ articles.elems.flatMap articleBlock ++ pageTail), none) := by
  have hq : (Expr.field "Query").eval (pageData articles query) = .ok (.string query) := rfl
  have ha : (Expr.field "Articles").eval (pageData articles query)
      = .ok (.slice (articles.elems.map NewsArticle.toValue)) := rfl
  unfold newsTemplate
  rw [execList_text, execList_action _ _ _ _ _ query hq, execList_text,
    execList_range _ _ _ _ _ _ _ ha (range_articles articles.elems _ (Write_wroteHeader _ _)),
    execList_text]
  simp [Node.execList, Write_Write, applyEscapers, Escaper.apply]

/-! ## The two outcomes of `newsHandler` -/

theorem httpError_fresh (error : GoString) (code : Nat) :
    httpError ResponseWriter.fresh error code
      = ⟨[(str "Content-Type", str "text/plain; charset=utf-8"),
          (str "X-Content-Type-Options", str "nosniff")], true, code, error ++ str "\n"⟩ := by
  rfl

theorem Sprintf_fetch_error (s : GoString) :
    Sprintf (str "Error fetching news: %v") [s] = str "Error fetching news: " ++ s := by
  have h : Sprintf (str "Error fetching news: %v") [s]
      = str "Error fetching news: " ++ (s ++ []) := rfl
  rw [h]; simp

theorem newsHandler_of_err (rt : Runtime) (w : ResponseWriter) (r : Request) (e : GoError)
    (herr : (fetchNews rt (handlerQuery r)).err = some e) :
    newsHandler rt w r
      = ⟨httpError w (str "Error fetching news: " ++ e.msg) StatusInternalServerError,
          [handlerQuery r], (fetchNews rt (handlerQuery r)).requested⟩ := by
  unfold newsHandler
  simp only [herr, Sprintf_fetch_error]

theorem newsHandler_of_ok (rt : Runtime) (w : ResponseWriter) (r : Request)
    (hok : (fetchNews rt (handlerQuery r)).err = none) :
    newsHandler rt w r
      = ⟨w.Write (pageHead ++ attrEscaper (handlerQuery r) ++ pageMid
            ++ (fetchNews rt (handlerQuery r)).articles.elems.flatMap articleBlock ++ pageTail),
          [handlerQuery r], (fetchNews rt (handlerQuery r)).requested⟩ := by
  unfold newsHandler
  simp only [hok, parseNewsTemplate, execList_newsTemplate]

theorem newsHandler_fetched (rt : Runtime) (w : ResponseWriter) (r : Request) :
    (newsHandler rt w r).fetched = [handlerQuery r] := by
  cases herr : (fetchNews rt (handlerQuery r)).err with
  | none => rw [newsHandler_of_ok rt w r herr]
  | some e => rw [newsHandler_of_err rt w r e herr]

theorem newsHandler_requested (rt : Runtime) (w : ResponseWriter) (r : Request) :
    (newsHandler rt w r).requested = (fetchNews rt (handlerQuery r)).requested := by
  cases herr : (fetchNews rt (handlerQuery r)).err with
  | none => rw [newsHandler_of_ok rt w r herr]
  | some e => rw [newsHandler_of_err rt w r e herr]

theorem handlerQuery_default (r : Request)
    (hq : lookupFirst (ParseQuery r.RawQuery) (str "q") = none ∨
      lookupFirst (ParseQuery r.RawQuery) (str "q") = some (str "")) :
    handlerQuery r = str "finance" := by
  unfold handlerQuery Values.Get
  rcases hq with h | h <;> rw [h] <;> rfl

theorem handlerQuery_nonempty (r : Request) (q : GoString)
    (hq : lookupFirst (ParseQuery r.RawQuery) (str "q") = some q) (hne : q ≠ str "") :
    handlerQuery r = q := by
  unfold handlerQuery Values.Get
  rw [hq]
  simp [hne]

theorem attrEscaper_finance : attrEscaper (str "finance") = str "finance" := by
  decide

theorem cut_cons_ne (sep c : Byte) (r : GoString) (h : c ≠ sep) :
    cut sep (c :: r) = (c :: (cut sep r).1, (cut sep r).2.1, (cut sep r).2.2) := by
  simp [cut, h]

theorem splitAmp_cons_ne (c : Byte) (r : GoString) (h : c ≠ ch '&') :
    splitAmp (c :: r)
      = match splitAmp r with
        | [] => [[c]]
        | seg :: segs => (c :: seg) :: segs := by
  simp [splitAmp, h]

theorem QueryUnescape_cons_plain (c : Byte) (r : GoString) (h1 : c ≠ ch '%')
    (h2 : c ≠ ch '+') :
    QueryUnescape (c :: r) = (QueryUnescape r).map (fun t => c :: t) := by
  conv => lhs; unfold QueryUnescape
  simp only [h1, h2, if_false]

theorem cut_fst_append (sep : Byte) (x y : GoString) (h : sep ∉ x) :
    (cut sep (x ++ y)).1 = x ++ (cut sep y).1 := by
  induction x with
  | nil => rfl
  | cons c x ih =>
    have hc : c ≠ sep := fun e => h (e ▸ List.mem_cons_self _ _)
    have hx : sep ∉ x := fun hm => h (List.mem_cons_of_mem _ hm)
    rw [List.cons_append, cut_cons_ne _ _ _ hc, ih hx]
    rfl

theorem splitAmp_ne_nil (s : GoString) : splitAmp s ≠ [] := by
  induction s with
  | nil => simp [splitAmp]
  | cons c s ih =>
    unfold splitAmp
    split
    · simp
    · split <;> simp

theorem splitAmp_append (x y : GoString) (h : ch '&' ∉ x) :
    splitAmp (x ++ ch '&' :: y) = x :: splitAmp y := by
  induction x with
  | nil => simp [splitAmp]
  | cons c x ih =>
    have hc : c ≠ ch '&' := fun e => h (e ▸ List.mem_cons_self _ _)
    have hx : ch '&' ∉ x := fun hm => h (List.mem_cons_of_mem _ hm)
    rw [List.cons_append, splitAmp_cons_ne _ _ hc, ih hx]

theorem QueryUnescape_of_plain (s : GoString) (h : ∀ b ∈ s, b ≠ ch '%' ∧ b ≠ ch '+') :
    QueryUnescape s = some s := by
  induction s with
  | nil => rfl
  | cons c s ih =>
    have hc := h c (List.mem_cons_self _ _)
    have hs : ∀ b ∈ s, b ≠ ch '%' ∧ b ≠ ch '+' := fun b hb => h b (List.mem_cons_of_mem _ hb)
    rw [QueryUnescape_cons_plain _ _ hc.1 hc.2, ih hs]
    rfl

theorem rawQueryOf_requestURL (q apiKey : GoString) (h : ch '#' ∉ q) :
    rawQueryOf (requestURL q apiKey)
      = str "q=" ++ q ++ ch '&' :: (str "apiKey=" ++ (cut (ch '#') apiKey).1) := by
  have h1 : requestURL q apiKey
      = str "https://newsapi.org/v2/everything?q=" ++ (q ++ (str "&apiKey=" ++ apiKey)) := by
    simp [requestURL]
  have h2 : ch '#' ∉ str "https://newsapi.org/v2/everything?q=" := by decide
  have h3 : ch '#' ∉ str "&apiKey=" := by decide
  unfold rawQueryOf
  rw [h1, cut_fst_append _ _ _ h2, cut_fst_append _ _ _ h, cut_fst_append _ _ _ h3]
  simp only [List.append_assoc]
  rfl

theorem parsePair_q (q : GoString) (h : queryPlain q) :
    parsePair (str "q=" ++ q) = some (str "q", q) := by
  have hsemi : ch ';' ∉ str "q=" ++ q := by
    intro hm
    rcases List.mem_append.1 hm with hm | hm
    · exact absurd hm (by decide)
    · exact (h _ hm).2.2.1 rfl
  have hcut : cut (ch '=') (str "q=" ++ q) = (str "q", q, true) := rfl
  have hne : str "q=" ++ q ≠ [] := by
    intro e
    have : (str "q=" ++ q).length = 0 := by rw [e]; rfl
    simp [str, encodeRune] at this
  unfold parsePair
  rw [if_neg hsemi, if_neg hne]
  simp only [hcut]
  rw [QueryUnescape_of_plain q (fun b hb => ⟨(h b hb).2.2.2.1, (h b hb).2.2.2.2⟩)]
  rfl

/-- For a query free of separators and escapes, the parameter a server parses
from the request URL is the query itself. -/
theorem searchParam_requestURL (q apiKey : GoString) (h : queryPlain q) :
    searchParam (requestURL q apiKey) = q := by
  have hhash : ch '#' ∉ q := fun hm => (h _ hm).2.1 rfl
  have hamp : ch '&' ∉ str "q=" ++ q := by
    intro hm
    rcases List.mem_append.1 hm with hm | hm
    · exact absurd hm (by decide)
    · exact (h _ hm).1 rfl
  unfold searchParam Values.Get ParseQuery
  rw [rawQueryOf_requestURL q apiKey hhash, splitAmp_append _ _ hamp, List.filterMap_cons,
    parsePair_q q h]
  simp [lookupFirst]

/-- C4: when the request has no `q` parameter or an empty one, `newsHandler`
calls `fetchNews` once, with `finance`, and when that fetch succeeds the page
it writes carries `finance` as the value of the form's input, between the
page head (which ends in `value="`) and the rest of the page. -/
theorem newsHandler_default_query (rt : Runtime) (r : Request)
    (hq : lookupFirst (ParseQuery r.RawQuery) (str "q") = none ∨
      lookupFirst (ParseQuery r.RawQuery) (str "q") = some (str "")) :
    (newsHandler rt ResponseWriter.fresh r).fetched = [str "finance"] ∧
      (newsHandler rt ResponseWriter.fresh r).requested
        = (fetchNews rt (str "finance")).requested ∧
      ((fetchNews rt (str "finance")).err = none →
        (newsHandler rt ResponseWriter.fresh r).w.body
          = pageHead ++ str "finance" ++ pageMid
              ++ (fetchNews rt (str "finance")).articles.elems.flatMap articleBlock
              ++ pageTail) := by
  have hd := handlerQuery_default r hq
  refine ⟨?_, ?_, fun hok => ?_⟩
  · rw [newsHandler_fetched, hd]
  · rw [newsHandler_requested, hd]
  · rw [← hd] at hok
    rw [newsHandler_of_ok rt _ r hok, Write_fresh, hd, attrEscaper_finance]

theorem newsHandler_default_query_witness :
    (newsHandler okRuntime ResponseWriter.fresh bareRequest).fetched = [str "finance"] ∧
      (newsHandler okRuntime ResponseWriter.fresh bareRequest).requested
        = (fetchNews okRuntime (str "finance")).requested ∧
      ((fetchNews okRuntime (str "finance")).err = none →
        (newsHandler okRuntime ResponseWriter.fresh bareRequest).w.body
          = pageHead ++ str "finance" ++ pageMid
              ++ (fetchNews okRuntime (str "finance")).articles.elems.flatMap articleBlock
              ++ pageTail) :=
  newsHandler_default_query okRuntime bareRequest (Or.inl (by decide))

theorem parsedSearchParam_of_parses (url raw : GoString)
    (hp : parseRawQuery url = some raw) :
    parsedSearchParam url = some (searchParam url) := by
  have hraw : parseRawQuery url = some (rawQueryOf url) := by
    unfold parseRawQuery at hp ⊢
    simp only at hp ⊢
    by_cases h1 : (cut (ch '#') url).1.any isCTL = true
    · rw [if_pos h1] at hp
      exact absurd hp (by simp)
    · by_cases h2 : (cut (ch '#') url).2.1 ≠ [] ∧ escapesValid (cut (ch '#') url).2.1 = false
      · rw [if_neg h1, if_pos h2] at hp
        exact absurd hp (by simp)
      · rw [if_neg h1, if_neg h2]
  unfold parsedSearchParam searchParam
  rw [hraw]
  rfl

theorem cut_of_not_mem (sep : Byte) (s : GoString) (h : sep ∉ s) :
    cut sep s = (s, [], false) := by
  induction s with
  | nil => rfl
  | cons c s ih =>
    have hc : c ≠ sep := fun e => h (e ▸ List.mem_cons_self _ _)
    have hs : sep ∉ s := fun hm => h (List.mem_cons_of_mem _ hm)
    rw [cut_cons_ne _ _ _ hc, ih hs]

/-- The URL `fetchNews` builds parses when neither the query nor the
credential holds a control byte or a `#`. -/
theorem parseRawQuery_requestURL (q apiKey : GoString)
    (hq : ∀ b ∈ q, isCTL b = false ∧ b ≠ ch '#')
    (hk : ∀ b ∈ apiKey, isCTL b = false ∧ b ≠ ch '#') :
    parseRawQuery (requestURL q apiKey) = some (rawQueryOf (requestURL q apiKey)) := by
  have hmem : ∀ b ∈ requestURL q apiKey, isCTL b = false ∧ b ≠ ch '#' := by
    intro b hb
    unfold requestURL at hb
    simp only [List.mem_append] at hb
    have hlit1 : ∀ c ∈ str "https://newsapi.org/v2/everything?q=",
        isCTL c = false ∧ c ≠ ch '#' := by decide
    have hlit2 : ∀ c ∈ str "&apiKey=", isCTL c = false ∧ c ≠ ch '#' := by decide
    rcases hb with ((hb | hb) | hb) | hb
    · exact hlit1 b hb
    · exact hq b hb
    · exact hlit2 b hb
    · exact hk b hb
  have hhash : ch '#' ∉ requestURL q apiKey := fun hm => (hmem _ hm).2 rfl
  have hany : (requestURL q apiKey).any isCTL = false := by
    rw [List.any_eq_false]
    intro b hb
    simp [(hmem b hb).1]
  unfold parseRawQuery
  simp only [cut_of_not_mem _ _ hhash, hany]
  simp

/-- C5 fails as stated: for the request `q=a%26b` the `q` value is the
non-empty string `a&b`, it is handed to `fetchNews` unchanged and written
into the URL as it stands, and the `q` parameter of that URL is `a`, not
`a&b`. -/
theorem newsHandler_query_not_parsed_back :
    lookupFirst (ParseQuery ampersandRequest.RawQuery) (str "q") = some (str "a&b") ∧
      str "a&b" ≠ str "" ∧
      (newsHandler okRuntime ResponseWriter.fresh ampersandRequest).fetched = [str "a&b"] ∧
      (newsHandler okRuntime ResponseWriter.fresh ampersandRequest).requested
        = [str "https://newsapi.org/v2/everything?q=a&b&apiKey=secret"] ∧
      (newsHandler okRuntime ResponseWriter.fresh ampersandRequest).requested.map
          parsedSearchParam = [some (str "a")] ∧
      ¬ (newsHandler okRuntime ResponseWriter.fresh ampersandRequest).requested.map
          parsedSearchParam = [some (str "a&b")] := by
  refine ⟨by decide, by decide, by decide, by decide, by decide, by decide⟩

/-- C5, amended: when the request's `q` parameter is a non-empty string,
`newsHandler` calls `fetchNews` once with that string unchanged; with a
credential set the one URL handed to `http.Get` is the literal prefix, that
same string written as it stands, `&apiKey=` and the credential; whenever
`url.Parse` accepts that URL and the string holds none of the bytes
`&`, `#`, `;`, `%` and `+`, the `q` parameter parsed from the URL is the
string; and `url.Parse` accepts the URL when neither the string nor the
credential holds a control byte or a `#`. -/
theorem newsHandler_passes_query_through (rt : Runtime) (r : Request) (q : GoString)
    (hq : lookupFirst (ParseQuery r.RawQuery) (str "q") = some q) (hne : q ≠ str "") :
    (newsHandler rt ResponseWriter.fresh r).fetched = [q] ∧
      (Getenv rt.environ (str "NEWS_API_KEY") ≠ str "" →
        (newsHandler rt ResponseWriter.fresh r).requested
          = [str "https://newsapi.org/v2/everything?q=" ++ q ++ str "&apiKey="
              ++ Getenv rt.environ (str "NEWS_API_KEY")]) ∧
      (Getenv rt.environ (str "NEWS_API_KEY") ≠ str "" → queryPlain q →
        ∀ raw, parseRawQuery (requestURL q (Getenv rt.environ (str "NEWS_API_KEY")))
            = some raw →
          (newsHandler rt ResponseWriter.fresh r).requested.map parsedSearchParam
            = [some q]) ∧
      (Getenv rt.environ (str "NEWS_API_KEY") ≠ str "" → queryPlain q →
        (∀ b ∈ q, isCTL b = false) →
        (∀ b ∈ Getenv rt.environ (str "NEWS_API_KEY"), isCTL b = false ∧ b ≠ ch '#') →
          (newsHandler rt ResponseWriter.fresh r).requested.map parsedSearchParam
            = [some q]) := by
  have hd := handlerQuery_nonempty r q hq hne
  have hparsed : ∀ raw, queryPlain q →
      parseRawQuery (requestURL q (Getenv rt.environ (str "NEWS_API_KEY"))) = some raw →
      Getenv rt.environ (str "NEWS_API_KEY") ≠ str "" →
      (newsHandler rt ResponseWriter.fresh r).requested.map parsedSearchParam
        = [some q] := by
    intro raw hplain hp hkey
    rw [newsHandler_requested, hd, fetchNews_requested rt q hkey, List.map_singleton,
      parsedSearchParam_of_parses _ raw hp, searchParam_requestURL q _ hplain]
  refine ⟨?_, fun hkey => ?_, fun hkey hplain raw hp => hparsed raw hplain hp hkey,
    fun hkey hplain hctl hk => ?_⟩
  · rw [newsHandler_fetched, hd]
  · rw [newsHandler_requested, hd, fetchNews_requested rt q hkey]
    rfl
  · exact hparsed _ hplain
      (parseRawQuery_requestURL q _ (fun b hb => ⟨hctl b hb, (hplain b hb).2.1⟩) hk) hkey

theorem newsHandler_passes_query_through_witness :
    (newsHandler okRuntime ResponseWriter.fresh plainRequest).fetched = [str "tesla"] ∧
      (newsHandler okRuntime ResponseWriter.fresh plainRequest).requested
        = [str "https://newsapi.org/v2/everything?q=tesla&apiKey=secret"] ∧
      (newsHandler okRuntime ResponseWriter.fresh plainRequest).requested.map
          parsedSearchParam = [some (str "tesla")] :=
  have h := newsHandler_passes_query_through okRuntime plainRequest (str "tesla")
    (by decide) (by decide)
  have hplain : queryPlain (str "tesla") :=
    show ∀ b ∈ str "tesla", b ≠ ch '&' ∧ b ≠ ch '#' ∧ b ≠ ch ';' ∧ b ≠ ch '%' ∧ b ≠ ch '+'
      by decide
  have _h3 := h.2.2.1 (by decide) hplain (str "q=tesla&apiKey=secret") (by decide)
  ⟨h.1, h.2.1 (by decide), h.2.2.2 (by decide) hplain (by decide) (by decide)⟩

/-- C6: whenever `fetchNews` returns an error, of whatever stage, the response
`newsHandler` leaves has status 500, the plain-text headers of `http.Error`,
and a body that is exactly `Error fetching news: `, the error's text and a
newline; nothing of the template is written. -/
theorem newsHandler_fetch_failure (rt : Runtime) (r : Request) (e : GoError)
    (herr : (fetchNews rt (handlerQuery r)).err = some e) :
    (newsHandler rt ResponseWriter.fresh r).w.status = 500 ∧
      (newsHandler rt ResponseWriter.fresh r).w.body
        = str "Error fetching news: " ++ e.msg ++ str "\n" ∧
      (newsHandler rt ResponseWriter.fresh r).w.header
        = [(str "Content-Type", str "text/plain; charset=utf-8"),
            (str "X-Content-Type-Options", str "nosniff")] := by
  rw [newsHandler_of_err rt _ r e herr, httpError_fresh]
  exact ⟨rfl, rfl, rfl⟩

theorem newsHandler_fetch_failure_witness :
    (newsHandler upstreamErrorRuntime ResponseWriter.fresh bareRequest).w.status = 500 ∧
      (newsHandler upstreamErrorRuntime ResponseWriter.fresh bareRequest).w.body
        = str "Error fetching news: " ++ str "API returned an error: error" ++ str "\n" ∧
      (newsHandler upstreamErrorRuntime ResponseWriter.fresh bareRequest).w.header
        = [(str "Content-Type", str "text/plain; charset=utf-8"),
            (str "X-Content-Type-Options", str "nosniff")] :=
  newsHandler_fetch_failure upstreamErrorRuntime bareRequest
    ⟨str "API returned an error: error"⟩ (by decide)

/-! ## Escapers -/

theorem htmlReplacer_of_plain (s : GoString) (h : htmlPlain s) : htmlReplacer s = s := by
  induction s with
  | nil => rfl
  | cons b rest ih =>
    have hb : htmlReplacementTable b = [] := h b (List.mem_cons_self _ _)
    have hrest : htmlPlain rest := fun c hc => h c (List.mem_cons_of_mem _ hc)
    have ih2 := ih hrest
    unfold htmlReplacer at ih2 ⊢
    simp only [List.flatMap_cons, hb, if_true, ih2]
    rfl

theorem urlNormalizer_of_keep (s : GoString) (h : ∀ b ∈ s, urlKeep b = true) :
    urlNormalizer s = s := by
  induction s with
  | nil => rfl
  | cons b rest ih =>
    have hb : urlKeep b = true := h b (List.mem_cons_self _ _)
    have hrest : ∀ c ∈ rest, urlKeep c = true := fun c hc => h c (List.mem_cons_of_mem _ hc)
    simp only [urlNormalizer, hb, if_true, ih hrest]

theorem urlFilter_of_safe (s : GoString) (h : isSafeURL s = true) : urlFilter s = s := by
  unfold urlFilter
  simp [h]

theorem htmlReplacementTable_no_lt (a b : Byte)
    (hb : b ∈ (if htmlReplacementTable a = [] then [a] else htmlReplacementTable a)) :
    b ≠ ch '<' := by
  by_cases h0 : a = 0
  · subst h0; revert b; decide
  by_cases h1 : a = ch '"'
  · subst h1; revert b; decide
  by_cases h2 : a = ch '&'
  · subst h2; revert b; decide
  by_cases h3 : a = ch '\''
  · subst h3; revert b; decide
  by_cases h4 : a = ch '+'
  · subst h4; revert b; decide
  by_cases h5 : a = ch '<'
  · subst h5; revert b; decide
  by_cases h6 : a = ch '>'
  · subst h6; revert b; decide
  have ht : htmlReplacementTable a = [] := by
    simp only [htmlReplacementTable, h0, h1, h2, h3, h4, h5, h6, if_false]
  rw [ht] at hb
  simp only [if_true, List.mem_singleton] at hb
  rw [hb]
  exact h5

theorem htmlReplacer_no_lt (s : GoString) : ∀ b ∈ htmlReplacer s, b ≠ ch '<' := by
  intro b hb
  unfold htmlReplacer at hb
  rw [List.mem_flatMap] at hb
  obtain ⟨a, _, hba⟩ := hb
  exact htmlReplacementTable_no_lt a b hba

/-! ## Counting the rules of the page -/

theorem countOcc_skip (d rest : GoString) (h : ∀ b ∈ d, b ≠ ch '<') :
    countOcc (str "<hr>") (d ++ rest) = countOcc (str "<hr>") rest := by
  induction d with
  | nil => rfl
  | cons b d ih =>
    have hb : b ≠ ch '<' := h b (List.mem_cons_self _ _)
    have hd : ∀ c ∈ d, c ≠ ch '<' := fun c hc => h c (List.mem_cons_of_mem _ hc)
    have hpre : (str "<hr>").isPrefixOf (b :: (d ++ rest)) = false := by
      have : str "<hr>" = ch '<' :: str "hr>" := rfl
      rw [this, List.isPrefixOf]
      have : (ch '<' == b) = false := by
        simp only [beq_eq_false_iff_ne, ne_eq]
        exact fun e => hb e.symm
      rw [this]
      rfl
    rw [List.cons_append, countOcc, hpre, ih hd]
    rfl

theorem countOcc_pageHead (rest : GoString) :
    countOcc (str "<hr>") (pageHead ++ rest) = countOcc (str "<hr>") rest := by
  rfl

theorem countOcc_pageMid (rest : GoString) :
    countOcc (str "<hr>") (pageMid ++ rest) = countOcc (str "<hr>") rest := by
  rfl

theorem countOcc_pageTail : countOcc (str "<hr>") pageTail = 0 := by
  rfl

theorem countOcc_blockOpen (rest : GoString) :
    countOcc (str "<hr>") (blockOpen ++ rest) = countOcc (str "<hr>") rest := by
  rfl

theorem countOcc_linkMid (rest : GoString) :
    countOcc (str "<hr>") (linkMid ++ rest) = countOcc (str "<hr>") rest := by
  rfl

theorem countOcc_linkClose (rest : GoString) :
    countOcc (str "<hr>") (linkClose ++ rest) = countOcc (str "<hr>") rest := by
  rfl

theorem countOcc_dash (rest : GoString) :
    countOcc (str "<hr>") (str " - " ++ rest) = countOcc (str "<hr>") rest := by
  rfl

theorem countOcc_paragraphBreak (rest : GoString) :
    countOcc (str "<hr>") (paragraphBreak ++ rest) = countOcc (str "<hr>") rest := by
  rfl

theorem countOcc_blockClose (rest : GoString) :
    countOcc (str "<hr>") (blockClose ++ rest) = countOcc (str "<hr>") rest + 1 := by
  rfl

/-- Every block holds exactly one rule, whatever follows it. -/
theorem countOcc_articleBlock (a : NewsArticle) (rest : GoString) :
    countOcc (str "<hr>") (articleBlock a ++ rest) = countOcc (str "<hr>") rest + 1 := by
  rw [articleBlock_eq]
  simp only [List.append_assoc, attrEscaper, htmlEscaper]
  rw [countOcc_blockOpen, countOcc_skip _ _ (htmlReplacer_no_lt _), countOcc_linkMid,
    countOcc_skip _ _ (htmlReplacer_no_lt _), countOcc_linkClose,
    countOcc_skip _ _ (htmlReplacer_no_lt _), countOcc_dash,
    countOcc_skip _ _ (htmlReplacer_no_lt _), countOcc_paragraphBreak,
    countOcc_skip _ _ (htmlReplacer_no_lt _), countOcc_paragraphBreak,
    countOcc_skip _ _ (htmlReplacer_no_lt _), countOcc_blockClose]

theorem countOcc_blocks (articles : List NewsArticle) (rest : GoString) :
    countOcc (str "<hr>") (articles.flatMap articleBlock ++ rest)
      = countOcc (str "<hr>") rest + articles.length := by
  induction articles with
  | nil => rfl
  | cons a more ih =>
    rw [List.flatMap_cons, List.append_assoc, countOcc_articleBlock, ih, List.length_cons]
    omega

/-- The page holds exactly one rule per article. -/
theorem countOcc_page (query : GoString) (articles : List NewsArticle) :
    countOcc (str "<hr>") (pageHead ++ attrEscaper query ++ pageMid
        ++ articles.flatMap articleBlock ++ pageTail) = articles.length := by
  simp only [List.append_assoc, attrEscaper]
  rw [countOcc_pageHead, countOcc_skip _ _ (htmlReplacer_no_lt _), countOcc_pageMid,
    countOcc_blocks, countOcc_pageTail]
  omega

/-- C7: when the fetch succeeds with the slice `articles`, the response has
status 200 and its body is the page head, the escaped query, the page middle,
then one block per article (as many blocks as articles, the i-th block being
the block of the i-th article) and the page tail; the body holds exactly as
many `<hr>` rules as there are articles, and a nil or empty slice gives no
block at all. -/
theorem newsHandler_renders_blocks_in_order (rt : Runtime) (r : Request)
    (articles : Slice NewsArticle)
    (hok : (fetchNews rt (handlerQuery r)).err = none)
    (hart : (fetchNews rt (handlerQuery r)).articles = articles) :
    (newsHandler rt ResponseWriter.fresh r).w.status = 200 ∧
      (newsHandler rt ResponseWriter.fresh r).w.body
        = pageHead ++ attrEscaper (handlerQuery r) ++ pageMid
            ++ (articles.elems.map articleBlock).flatten ++ pageTail ∧
      (articles.elems.map articleBlock).length = articles.elems.length ∧
      (∀ i (h : i < articles.elems.length),
        (articles.elems.map articleBlock)[i]? = some (articleBlock (articles.elems.get ⟨i, h⟩))) ∧
      countOcc (str "<hr>") (newsHandler rt ResponseWriter.fresh r).w.body
        = articles.elems.length ∧
      ((articles = none ∨ articles = some []) →
        (newsHandler rt ResponseWriter.fresh r).w.body
          = pageHead ++ attrEscaper (handlerQuery r) ++ pageMid ++ pageTail) := by
  have hbody : (newsHandler rt ResponseWriter.fresh r).w.body
      = pageHead ++ attrEscaper (handlerQuery r) ++ pageMid
          ++ articles.elems.flatMap articleBlock ++ pageTail := by
    rw [newsHandler_of_ok rt _ r hok, Write_fresh, hart]
  refine ⟨?_, ?_, ?_, ?_, ?_, ?_⟩
  · rw [newsHandler_of_ok rt _ r hok, Write_fresh]
  · rw [hbody, List.flatMap_def]
  · rw [List.length_map]
  · intro i h
    rw [List.getElem?_map, List.getElem?_eq_getElem h]
    rfl
  · rw [hbody, countOcc_page]
  · intro hnone
    rw [hbody]
    rcases hnone with h | h <;> rw [h] <;> simp [Slice.elems]

theorem newsHandler_renders_blocks_in_order_witness :
    (newsHandler okRuntime ResponseWriter.fresh searchRequest).w.status = 200 ∧
      (newsHandler okRuntime ResponseWriter.fresh searchRequest).w.body
        = pageHead ++ attrEscaper (handlerQuery searchRequest) ++ pageMid
            ++ ([sampleArticle, scriptArticle].map articleBlock).flatten ++ pageTail ∧
      ([sampleArticle, scriptArticle].map articleBlock).length = 2 ∧
      (∀ i (h : i < 2),
        ([sampleArticle, scriptArticle].map articleBlock)[i]?
          = some (articleBlock ([sampleArticle, scriptArticle].get ⟨i, h⟩))) ∧
      countOcc (str "<hr>") (newsHandler okRuntime ResponseWriter.fresh searchRequest).w.body
        = 2 ∧
      (((some [sampleArticle, scriptArticle] : Slice NewsArticle) = none
          ∨ (some [sampleArticle, scriptArticle] : Slice NewsArticle) = some []) →
        (newsHandler okRuntime ResponseWriter.fresh searchRequest).w.body
          = pageHead ++ attrEscaper (handlerQuery searchRequest) ++ pageMid ++ pageTail) :=
  newsHandler_renders_blocks_in_order okRuntime searchRequest
    (some [sampleArticle, scriptArticle]) (by decide) (by decide)

theorem escaped_url_of_plain (url : GoString) (hsafe : isSafeURL url = true)
    (hplain : urlPlain url) : attrEscaper (urlNormalizer (urlFilter url)) = url := by
  rw [urlFilter_of_safe url hsafe, urlNormalizer_of_keep url (fun b hb => (hplain b hb).1)]
  exact htmlReplacer_of_plain url (fun b hb => (hplain b hb).2)

/-- C8 fails as stated: the block of an article whose URL is
`javascript:alert(1)` links to `#ZgotmplZ`, and no hyperlink of the block has
the article's URL as its `href`. -/
theorem articleBlock_href_not_url :
    articleBlock scriptArticle
        = str "\n                                <div>\n                                        <h3><a href=\"#ZgotmplZ\" target=\"_blank\">x</a></h3>\n                    <p>0001-01-01 00:00:00 - </p>\n                                        <p></p>\n                                        <p></p>\n                                        <hr>\n                                </div>\n                        " ∧
      ¬ ∃ pre post, articleBlock scriptArticle
          = pre ++ str "<a href=\"" ++ scriptArticle.URL ++ str "\" target=\"_blank\">"
              ++ scriptArticle.Title ++ str "</a>" ++ post := by
  refine ⟨by decide, ?_⟩
  rintro ⟨pre, post, h⟩
  have hj : ch 'j' ∈ articleBlock scriptArticle := by
    rw [h]
    simp only [List.mem_append]
    exact Or.inl (Or.inl (Or.inl (Or.inl (Or.inr (by decide)))))
  exact absurd hj (by decide)

/-- C8, amended: the block of every article contains a hyperlink whose `href`
is the article's URL passed through the URL filter, the URL normalizer and
the attribute escaper, and whose text is the HTML-escaped title; when the URL
is safe and made of bytes those escapers copy, and the title has no byte the
HTML escaper replaces, the `href` is the URL itself and the link text the
title itself. -/
theorem articleBlock_hyperlink (a : NewsArticle) :
    (∃ pre post, articleBlock a
        = pre ++ str "<a href=\"" ++ attrEscaper (urlNormalizer (urlFilter a.URL))
            ++ str "\" target=\"_blank\">" ++ htmlEscaper a.Title ++ str "</a>" ++ post) ∧
      (isSafeURL a.URL = true → urlPlain a.URL → htmlPlain a.Title →
        ∃ pre post, articleBlock a
          = pre ++ str "<a href=\"" ++ a.URL ++ str "\" target=\"_blank\">" ++ a.Title
              ++ str "</a>" ++ post) := by
  have hgen : ∃ pre post, articleBlock a
      = pre ++ str "<a href=\"" ++ attrEscaper (urlNormalizer (urlFilter a.URL))
          ++ str "\" target=\"_blank\">" ++ htmlEscaper a.Title ++ str "</a>" ++ post := by
    refine ⟨str "\n                                <div>\n                                        <h3>",
      str "</h3>\n                    <p>" ++ htmlEscaper (formatDateTime a.PublishedAt)
        ++ str " - " ++ htmlEscaper a.SourceName ++ paragraphBreak
        ++ htmlEscaper a.Description ++ paragraphBreak ++ htmlEscaper a.Content
        ++ blockClose, ?_⟩
    rw [articleBlock_eq]
    have h1 : blockOpen = str "\n                                <div>\n                                        <h3>" ++ str "<a href=\"" := by
      decide
    have h2 : linkClose = str "</a>" ++ str "</h3>\n                    <p>" := by decide
    rw [h1, h2]
    simp only [List.append_assoc, linkMid]
  refine ⟨hgen, fun hsafe hurl htitle => ?_⟩
  obtain ⟨pre, post, h⟩ := hgen
  refine ⟨pre, post, ?_⟩
  rw [h, escaped_url_of_plain a.URL hsafe hurl]
  unfold htmlEscaper
  rw [htmlReplacer_of_plain a.Title htitle]

theorem articleBlock_hyperlink_witness :
    ∃ pre post, articleBlock sampleArticle
      = pre ++ str "<a href=\"" ++ str "https://example.com/a" ++ str "\" target=\"_blank\">"
          ++ str "Markets rally" ++ str "</a>" ++ post :=
  (articleBlock_hyperlink sampleArticle).2 (by decide)
    (show ∀ b ∈ sampleArticle.URL, urlKeep b = true ∧ htmlReplacementTable b = [] by decide)
    (show ∀ b ∈ sampleArticle.Title, htmlReplacementTable b = [] by decide)

end Foresight
